import Mathlib

/-!
Shallow embedding of the lifecycle-and-deployment core of the repository
(`app/services/app_manager.py`, `app/services/script_executor.py`,
`app/services/github_client.py`), together with theorems checking the
specification's claims against these definitions.

External effects (subprocess runs, HTTP requests, the filesystem, the
database) are modelled by explicit oracle arguments describing the outcome
of each external call, and by explicit state values threaded through the
functions.  Each definition is a direct translation of the corresponding
Python function.
-/

/-! ## `app_manager.py` -/

/-- Embeds the `AppStatus` enumeration of `app_manager.py`. -/
inductive AppStatus
  | running
  | stopped
  | error
  | unknown
  | not_installed
  deriving DecidableEq, Repr

/-- Embeds the `AppConfig` dataclass of `app_manager.py`. -/
structure AppConfig where
  id : String
  name : String
  description : String
  github_owner : String
  github_repo : String
  service_name : String
  port : Nat
  health_check_path : String
  auto_restart : Bool
  deriving DecidableEq, Repr

/-- Embeds the `AppState` dataclass of `app_manager.py`. -/
structure AppState where
  app_id : String
  status : AppStatus
  service_active : Bool
  health_check_ok : Option Bool
  error_message : Option String := none
  deriving DecidableEq, Repr

/-- Embeds the `OperationResult` dataclass of `app_manager.py` (the
`operation` field is the `OperationType` literal string). -/
structure OperationResult where
  success : Bool
  operation : String
  app_id : String
  message : String
  deriving DecidableEq, Repr

/-- Possible outcomes of the `subprocess.run(["systemctl", "is-active", ...])`
call inside `AppManager._check_service_active`: a process that completed with
some return code, a `subprocess.TimeoutExpired`, or a `FileNotFoundError`
(the systemctl binary is missing). -/
inductive IsActiveOutcome
  | exitCode (returncode : Nat)
  | timeoutExpired
  | fileNotFoundError
  deriving DecidableEq, Repr

/-- Possible outcomes of the `urllib.request.urlopen` health-probe call inside
`AppManager._check_health`: an HTTP response with some status, a `URLError`
(for example connection refused), or a `TimeoutError`. -/
inductive ProbeOutcome
  | response (status : Nat)
  | urlError
  | timeoutError
  deriving DecidableEq, Repr

/-- Possible outcomes of `AppManager._run_systemctl` (a `subprocess.run` with
`check=True` and `timeout=30`): success, a `subprocess.CalledProcessError` on
non-zero exit, a `subprocess.TimeoutExpired`, or some other exception. -/
inductive RunOutcome
  | ok
  | calledProcessError (msg : String)
  | timeoutExpired (msg : String)
  | otherException (msg : String)
  deriving DecidableEq, Repr

/-- External calls a method of `AppManager` can issue (systemctl invocations
and health-probe HTTP requests).  The embedding returns the list of issued
calls alongside each result, so claims about "no OS call is issued" can be
stated. -/
inductive OsCall
  | systemctlIsActive (service_name : String)
  | systemctlRun (operation : String) (service_name : String)
  | httpGet (url : String)
  deriving DecidableEq, Repr

/-- Embeds the `AppManager` object state: the `apps` dict (as an association
list keyed by app id) and the `use_systemctl` flag. -/
structure AppManager where
  apps : List (String × AppConfig)
  use_systemctl : Bool
  deriving DecidableEq, Repr

/-- Embeds `AppManager._check_service_active`: `False` without any OS call when
`use_systemctl` is off; otherwise the result of one `systemctl is-active` run,
where a non-zero exit, a timeout or a missing binary all yield `False`. -/
def check_service_active (use_systemctl : Bool) (service_name : String)
    (outcome : IsActiveOutcome) : Bool × List OsCall :=
  if use_systemctl then
    match outcome with
    | .exitCode returncode => (returncode == 0, [.systemctlIsActive service_name])
    | .timeoutExpired => (false, [.systemctlIsActive service_name])
    | .fileNotFoundError => (false, [.systemctlIsActive service_name])
  else
    (false, [])

/-- Embeds `AppManager._check_health`: a GET on the app's health URL; `True`
only for HTTP status 200, `False` on `URLError` or `TimeoutError`. -/
def check_health (app : AppConfig) (outcome : ProbeOutcome) : Bool × List OsCall :=
  let url := "http://localhost:" ++ toString app.port ++ app.health_check_path
  match outcome with
  | .response status => (status == 200, [.httpGet url])
  | .urlError => (false, [.httpGet url])
  | .timeoutError => (false, [.httpGet url])

/-- Embeds `AppManager._determine_status`. -/
def determine_status (service_active : Bool) (health_check_ok : Option Bool) :
    AppStatus :=
  if !service_active then
    .stopped
  else
    match health_check_ok with
    | none => .running
    | some ok => if ok then .running else .error

/-- Embeds `AppManager.get_status`.  `query` and `probe` are the oracles for
the service-active subprocess call and the health-probe HTTP call; the probe
oracle is consulted only on the code path that actually issues the probe. -/
def get_status (m : AppManager) (query : IsActiveOutcome) (probe : ProbeOutcome)
    (app_id : String) : AppState × List OsCall :=
  match m.apps.lookup app_id with
  | none =>
    ({ app_id := app_id, status := .unknown, service_active := false,
       health_check_ok := none,
       error_message := some ("アプリケーションが見つかりません: " ++ app_id) }, [])
  | some app =>
    let sa := check_service_active m.use_systemctl app.service_name query
    let hc : Option Bool × List OsCall :=
      if sa.1 then
        let h := check_health app probe
        (some h.1, h.2)
      else
        (none, [])
    ({ app_id := app_id, status := determine_status sa.1 hc.1,
       service_active := sa.1, health_check_ok := hc.1, error_message := none },
     sa.2 ++ hc.2)

/-- Embeds `AppManager._execute_operation`.  `run_outcome` is the oracle for
the `_run_systemctl` call; it is consulted only on the code path that issues
that call.  The `try`/`except` structure of the source (a `CalledProcessError`
branch and a catch-all `Exception` branch) is reflected in the match on the
outcome. -/
def execute_operation (m : AppManager) (run_outcome : RunOutcome)
    (app_id : String) (operation : String) : OperationResult × List OsCall :=
  match m.apps.lookup app_id with
  | none =>
    ({ success := false, operation := operation, app_id := app_id,
       message := "アプリケーションが見つかりません: " ++ app_id }, [])
  | some app =>
    if m.use_systemctl then
      match run_outcome with
      | .ok =>
        ({ success := true, operation := operation, app_id := app_id,
           message := operation ++ "が完了しました" },
         [.systemctlRun operation app.service_name])
      | .calledProcessError msg =>
        ({ success := false, operation := operation, app_id := app_id,
           message := "systemctl " ++ operation ++ " に失敗しました: " ++ msg },
         [.systemctlRun operation app.service_name])
      | .timeoutExpired msg =>
        ({ success := false, operation := operation, app_id := app_id,
           message := "予期しないエラー: " ++ msg },
         [.systemctlRun operation app.service_name])
      | .otherException msg =>
        ({ success := false, operation := operation, app_id := app_id,
           message := "予期しないエラー: " ++ msg },
         [.systemctlRun operation app.service_name])
    else
      ({ success := true, operation := operation, app_id := app_id,
         message := operation ++ "が完了しました" }, [])

/-- Embeds `AppManager.start`. -/
def AppManager.start (m : AppManager) (run_outcome : RunOutcome)
    (app_id : String) : OperationResult × List OsCall :=
  execute_operation m run_outcome app_id "start"

/-- Embeds `AppManager.stop`. -/
def AppManager.stop (m : AppManager) (run_outcome : RunOutcome)
    (app_id : String) : OperationResult × List OsCall :=
  execute_operation m run_outcome app_id "stop"

/-- Embeds `AppManager.restart`. -/
def AppManager.restart (m : AppManager) (run_outcome : RunOutcome)
    (app_id : String) : OperationResult × List OsCall :=
  execute_operation m run_outcome app_id "restart"

/-! ## Claims about `app_manager.py` status derivation and operations -/

/-- C2: for every known app, the status returned by `get_status` is derived
deterministically and in order from the service-active query and the health
probe: a query timeout or missing-binary failure counts as inactive; inactive
yields Stopped with no probe issued; active with no probe result yields
Running; active with a successful probe (HTTP 200) yields Running; active with
a failed probe (refused, non-200, or timeout) yields Error. -/
theorem c2_status_derivation (m : AppManager) (app_id : String) (app : AppConfig)
    (query : IsActiveOutcome) (probe : ProbeOutcome)
    (hfound : m.apps.lookup app_id = some app) :
    ((query = .timeoutExpired ∨ query = .fileNotFoundError) →
      (check_service_active m.use_systemctl app.service_name query).1 = false)
    ∧ ((check_service_active m.use_systemctl app.service_name query).1 = false →
        (get_status m query probe app_id).1.status = .stopped
        ∧ (get_status m query probe app_id).1.health_check_ok = none
        ∧ ∀ url, OsCall.httpGet url ∉ (get_status m query probe app_id).2)
    ∧ determine_status true none = .running
    ∧ ((check_service_active m.use_systemctl app.service_name query).1 = true →
        probe = .response 200 →
        (get_status m query probe app_id).1.status = .running)
    ∧ ((probe = .urlError ∨ probe = .timeoutError
          ∨ (∃ s, probe = .response s ∧ s ≠ 200)) →
        (check_health app probe).1 = false)
    ∧ ((check_service_active m.use_systemctl app.service_name query).1 = true →
        (check_health app probe).1 = false →
        (get_status m query probe app_id).1.status = .error) := by
  refine ⟨?_, ?_, rfl, ?_, ?_, ?_⟩
  · rintro (rfl | rfl) <;>
      by_cases h : m.use_systemctl <;> simp [check_service_active, h]
  · intro hinactive
    simp only [get_status, hfound]
    rw [hinactive]
    refine ⟨by simp [determine_status], by simp, ?_⟩
    intro url
    by_cases h : m.use_systemctl <;>
      rcases query with rc | _ | _ <;>
        simp [check_service_active, h]
  · intro hactive hp
    subst hp
    simp only [get_status, hfound]
    rw [hactive]
    simp [check_health, determine_status]
  · rintro (rfl | rfl | ⟨s, rfl, hs⟩) <;> simp [check_health]
    omega
  · intro hactive hfail
    simp only [get_status, hfound]
    rw [hactive]
    simp only [if_true]
    rw [hfail]
    simp [determine_status]

/-- Helper enumerating the possible results of `determine_status`. -/
theorem determine_status_cases (sa : Bool) (hc : Option Bool) :
    determine_status sa hc = .running ∨ determine_status sa hc = .stopped
      ∨ determine_status sa hc = .error := by
  rcases sa <;> rcases hc with _ | (_ | _) <;> simp [determine_status]

/-- C10: for every known app id, the status returned by `get_status` is one of
Running, Stopped, Error: the `not_installed` and `unknown` members of the
status enumeration are never produced for a configured app, and
`determine_status` (whose arguments are only the service-active flag and the
probe result, never the installed state) never returns them. -/
theorem c10_known_status_range (m : AppManager) (app_id : String)
    (app : AppConfig) (query : IsActiveOutcome) (probe : ProbeOutcome)
    (hfound : m.apps.lookup app_id = some app) :
    ((get_status m query probe app_id).1.status = .running
      ∨ (get_status m query probe app_id).1.status = .stopped
      ∨ (get_status m query probe app_id).1.status = .error)
    ∧ ∀ sa hc, determine_status sa hc ≠ .unknown
        ∧ determine_status sa hc ≠ .not_installed := by
  constructor
  · simp only [get_status, hfound]
    exact determine_status_cases _ _
  · intro sa hc
    rcases determine_status_cases sa hc with h | h | h <;> rw [h] <;> exact ⟨by simp, by simp⟩

/-- C4: `get_status` on an unknown app id returns status Unknown with an
"app not found" message and issues no OS call; `start`, `stop` and `restart`
on an unknown id return success=false with an "app not found" message and
issue no OS call; and for a known app a failure of the systemctl primitive
(non-zero exit reported as `CalledProcessError`, or a timeout) is caught and
returned as success=false with a diagnostic message rather than escaping as
an exception. -/
theorem c4_unknown_id_and_os_failures (m : AppManager) (app_id : String)
    (query : IsActiveOutcome) (probe : ProbeOutcome) (run_outcome : RunOutcome) :
    (m.apps.lookup app_id = none →
      (get_status m query probe app_id).1.status = .unknown
      ∧ (get_status m query probe app_id).1.error_message
          = some ("アプリケーションが見つかりません: " ++ app_id)
      ∧ (get_status m query probe app_id).2 = []
      ∧ (m.start run_outcome app_id).1.success = false
      ∧ (m.start run_outcome app_id).1.message
          = "アプリケーションが見つかりません: " ++ app_id
      ∧ (m.start run_outcome app_id).2 = []
      ∧ (m.stop run_outcome app_id).1.success = false
      ∧ (m.stop run_outcome app_id).1.message
          = "アプリケーションが見つかりません: " ++ app_id
      ∧ (m.stop run_outcome app_id).2 = []
      ∧ (m.restart run_outcome app_id).1.success = false
      ∧ (m.restart run_outcome app_id).1.message
          = "アプリケーションが見つかりません: " ++ app_id
      ∧ (m.restart run_outcome app_id).2 = [])
    ∧ (∀ app operation, m.apps.lookup app_id = some app →
        m.use_systemctl = true →
        (∀ msg, run_outcome = .calledProcessError msg →
          (execute_operation m run_outcome app_id operation).1.success = false
          ∧ (execute_operation m run_outcome app_id operation).1.message
              = "systemctl " ++ operation ++ " に失敗しました: " ++ msg)
        ∧ (∀ msg, run_outcome = .timeoutExpired msg →
          (execute_operation m run_outcome app_id operation).1.success = false
          ∧ (execute_operation m run_outcome app_id operation).1.message
              = "予期しないエラー: " ++ msg)) := by
  constructor
  · intro hnone
    simp [get_status, hnone, AppManager.start, AppManager.stop, AppManager.restart,
      execute_operation]
  · intro app operation hfound husesys
    constructor
    · rintro msg rfl
      simp [execute_operation, hfound, husesys]
    · rintro msg rfl
      simp [execute_operation, hfound, husesys]

/-- Concrete app configuration used by witness theorems. -/
def sampleApp : AppConfig :=
  { id := "app1", name := "App One", description := "",
    github_owner := "owner", github_repo := "repo",
    service_name := "app1.service", port := 8001,
    health_check_path := "/health", auto_restart := true }

/-- Concrete manager used by witness theorems. -/
def sampleManager : AppManager :=
  { apps := [("app1", sampleApp)], use_systemctl := true }

/-- Witness for `c2_status_derivation` at concrete inputs. -/
theorem c2_status_derivation_witness :
    sampleManager.apps.lookup "app1" = some sampleApp
    ∧ (check_service_active sampleManager.use_systemctl sampleApp.service_name
        .timeoutExpired).1 = false
    ∧ (get_status sampleManager .timeoutExpired .urlError "app1").1.status = .stopped
    ∧ (get_status sampleManager (.exitCode 0) (.response 200) "app1").1.status = .running
    ∧ (get_status sampleManager (.exitCode 0) (.response 500) "app1").1.status = .error :=
  ⟨by decide,
   (c2_status_derivation sampleManager "app1" sampleApp .timeoutExpired .urlError
      (by decide)).1 (Or.inl rfl),
   ((c2_status_derivation sampleManager "app1" sampleApp .timeoutExpired .urlError
      (by decide)).2.1 (by decide)).1,
   (c2_status_derivation sampleManager "app1" sampleApp (.exitCode 0) (.response 200)
      (by decide)).2.2.2.1 (by decide) rfl,
   (c2_status_derivation sampleManager "app1" sampleApp (.exitCode 0) (.response 500)
      (by decide)).2.2.2.2.2 (by decide)
     ((c2_status_derivation sampleManager "app1" sampleApp (.exitCode 0) (.response 500)
        (by decide)).2.2.2.2.1 (Or.inr (Or.inr ⟨500, rfl, by decide⟩)))⟩

/-- Witness for `c10_known_status_range` at concrete inputs. -/
theorem c10_known_status_range_witness :
    sampleManager.apps.lookup "app1" = some sampleApp
    ∧ ((get_status sampleManager (.exitCode 0) (.response 200) "app1").1.status = .running
       ∨ (get_status sampleManager (.exitCode 0) (.response 200) "app1").1.status = .stopped
       ∨ (get_status sampleManager (.exitCode 0) (.response 200) "app1").1.status = .error) :=
  ⟨by decide,
   (c10_known_status_range sampleManager "app1" sampleApp (.exitCode 0) (.response 200)
      (by decide)).1⟩

/-- Witness for `c4_unknown_id_and_os_failures` at concrete inputs. -/
theorem c4_unknown_id_and_os_failures_witness :
    sampleManager.apps.lookup "ghost" = none
    ∧ (get_status sampleManager .timeoutExpired .urlError "ghost").1.status = .unknown
    ∧ (get_status sampleManager .timeoutExpired .urlError "ghost").2 = []
    ∧ (sampleManager.start (.calledProcessError "boom") "ghost").1.success = false
    ∧ (sampleManager.start (.calledProcessError "boom") "ghost").2 = []
    ∧ sampleManager.apps.lookup "app1" = some sampleApp
    ∧ (execute_operation sampleManager (.calledProcessError "boom") "app1" "start").1.success
        = false
    ∧ (execute_operation sampleManager (.calledProcessError "boom") "app1" "start").1.message
        = "systemctl " ++ "start" ++ " に失敗しました: " ++ "boom" :=
  ⟨by decide,
   ((c4_unknown_id_and_os_failures sampleManager "ghost" .timeoutExpired .urlError
      (.calledProcessError "boom")).1 (by decide)).1,
   ((c4_unknown_id_and_os_failures sampleManager "ghost" .timeoutExpired .urlError
      (.calledProcessError "boom")).1 (by decide)).2.2.1,
   ((c4_unknown_id_and_os_failures sampleManager "ghost" .timeoutExpired .urlError
      (.calledProcessError "boom")).1 (by decide)).2.2.2.1,
   ((c4_unknown_id_and_os_failures sampleManager "ghost" .timeoutExpired .urlError
      (.calledProcessError "boom")).1 (by decide)).2.2.2.2.2.1,
   by decide,
   (((c4_unknown_id_and_os_failures sampleManager "app1" .timeoutExpired .urlError
      (.calledProcessError "boom")).2 sampleApp "start" (by decide) rfl).1 "boom" rfl).1,
   (((c4_unknown_id_and_os_failures sampleManager "app1" .timeoutExpired .urlError
      (.calledProcessError "boom")).2 sampleApp "start" (by decide) rfl).1 "boom" rfl).2⟩

/-! ## `script_executor.py` -/

/-- Embeds the `AppScript` dataclass (declared in `app/services/models.py`;
field list as constructed by `Database._row_to_app_script` and the tests, and
as the spec's ScriptDescriptor). -/
structure AppScript where
  id : String
  app_id : String
  name : String
  description : Option String := none
  script_path : String
  mode : String
  timeout : Nat
  sort_order : Nat := 0
  enabled : Bool := true
  deriving DecidableEq, Repr

/-- Embeds the `ScriptExecution` dataclass (declared in
`app/services/models.py`; field list as constructed by
`Database._row_to_script_execution`, and as the spec's ScriptExecutionRecord).
Timestamps are abstracted to natural numbers. -/
structure ScriptExecution where
  id : Nat
  script_id : String
  app_id : String
  executed_by : String
  mode : String
  status : String
  exit_code : Option Int := none
  stdout : Option String := none
  stderr : Option String := none
  started_at : Option Nat := none
  finished_at : Option Nat := none
  deriving DecidableEq, Repr

/-- Embeds the `ScriptExecutionResult` dataclass of `script_executor.py`. -/
structure ScriptExecutionResult where
  success : Bool
  exit_code : Option Int := none
  stdout : Option String := none
  stderr : Option String := none
  error_message : Option String := none
  deriving DecidableEq, Repr

/-- Abstract model of the filesystem operations `script_executor.py` uses on
`pathlib.Path` values: `Path(...).resolve()` (canonicalization, following
symlinks), `.suffix`, `.exists()`, `.is_file()`, `relative_to` (whether the
resolved path lies under a base directory), and rendering back to a string
for error messages. -/
structure FSModel (Path : Type) where
  resolve : String → Path
  suffix : Path → String
  pathExists : Path → Bool
  isFile : Path → Bool
  isUnder : Path → Path → Bool
  pathStr : Path → String

/-- Embeds the module constant `ALLOWED_EXTENSIONS_WINDOWS`. -/
def ALLOWED_EXTENSIONS_WINDOWS : List String := [".bat", ".cmd"]

/-- Embeds the module constant `ALLOWED_EXTENSIONS_LINUX`. -/
def ALLOWED_EXTENSIONS_LINUX : List String := [".sh"]

/-- Embeds the module constant `MAX_OUTPUT_SIZE` (64 KiB). -/
def MAX_OUTPUT_SIZE : Nat := 64 * 1024

/-- Embeds `ScriptExecutor._is_in_allowed_dirs`: the loop over
`allowed_base_dirs` trying `script_path.relative_to(base_dir)`. -/
def is_in_allowed_dirs {Path : Type} (fs : FSModel Path) (allowed_base_dirs : List Path)
    (script_path : Path) : Bool :=
  allowed_base_dirs.any fun base_dir => fs.isUnder script_path base_dir

/-- Embeds the Python `str.lower()` call (character-wise lowercasing). -/
def pyLower (s : String) : String := ⟨s.data.map Char.toLower⟩

/-- Embeds `ScriptExecutor.validate_script`: empty-path check, extension
check on the resolved path's suffix (lower-cased), allow-list containment of
the resolved path, existence and regular-file checks, in the source's order. -/
def validate_script {Path : Type} (fs : FSModel Path) (allowed_base_dirs : List Path)
    (is_windows : Bool) (script : AppScript) : Bool × String :=
  if script.script_path = "" then
    (false, "スクリプトパスが設定されていません")
  else
    let script_path := fs.resolve script.script_path
    let allowed_ext := if is_windows then ALLOWED_EXTENSIONS_WINDOWS
      else ALLOWED_EXTENSIONS_LINUX
    if !(allowed_ext.contains (pyLower (fs.suffix script_path))) then
      (false, "許可されていない拡張子です: " ++ fs.suffix script_path
        ++ " (許可: " ++ String.intercalate ", " allowed_ext ++ ")")
    else if !(is_in_allowed_dirs fs allowed_base_dirs script_path) then
      (false, "許可されたディレクトリ外のスクリプトです: " ++ fs.pathStr script_path)
    else if !(fs.pathExists script_path) then
      (false, "スクリプトファイルが見つかりません: " ++ fs.pathStr script_path)
    else if !(fs.isFile script_path) then
      (false, "スクリプトパスがファイルではありません: " ++ fs.pathStr script_path)
    else
      (true, "")

/-- Embeds the Python string slice `output[:n]` (the first `n` characters). -/
def pySlice (s : String) (n : Nat) : String := ⟨s.data.take n⟩

/-- Embeds `ScriptExecutor._truncate_output`. -/
def truncate_output : Option String → Option String
  | none => none
  | some output =>
    if output.length > MAX_OUTPUT_SIZE then
      some (pySlice output MAX_OUTPUT_SIZE ++ "\n... (truncated)")
    else
      some output

/-- Embeds `ScriptExecutor._build_command`. -/
def build_command {Path : Type} (fs : FSModel Path) (is_windows : Bool)
    (script_path : Path) : List String :=
  if is_windows then ["cmd", "/c", fs.pathStr script_path]
  else ["bash", fs.pathStr script_path]

/-- Possible outcomes of the `subprocess.run(cmd, capture_output=True,
text=True, timeout=script.timeout)` call in `execute_sync` / `_run_async`: a
completed process with return code and captured output, a
`subprocess.TimeoutExpired`, or an `OSError` at spawn. -/
inductive SpawnOutcome
  | completed (returncode : Int) (stdout stderr : String)
  | timeoutExpired
  | osError (msg : String)
  deriving DecidableEq, Repr

/-- Embeds `ScriptExecutor.execute_sync`.  `outcome` is the oracle for the one
`subprocess.run` call; it is consulted only after validation passes. -/
def execute_sync {Path : Type} (fs : FSModel Path) (allowed_base_dirs : List Path)
    (is_windows : Bool) (script : AppScript) (outcome : SpawnOutcome) :
    ScriptExecutionResult :=
  let v := validate_script fs allowed_base_dirs is_windows script
  if !v.1 then
    { success := false, error_message := some v.2 }
  else
    match outcome with
    | .completed returncode stdout stderr =>
      { success := returncode == 0, exit_code := some returncode,
        stdout := truncate_output (some stdout),
        stderr := truncate_output (some stderr) }
    | .timeoutExpired =>
      { success := false,
        error_message := some ("タイムアウト (" ++ toString script.timeout ++ "秒)") }
    | .osError msg =>
      { success := false, error_message := some ("実行エラー: " ++ msg) }

/-- Embeds `ScriptExecutor._run_async` (the body of the background thread
started by `execute_async`).  The database is modelled as the list of stored
`ScriptExecution` rows; `db.get_script_execution` is lookup by id,
`db.update_script_execution` is the SQL UPDATE by id (taken to succeed: the
source wraps it in a `try` that only logs a storage failure).  `now` stands
for `datetime.now()`. -/
def run_async (db : List ScriptExecution) (script : AppScript) (execution_id : Nat)
    (outcome : SpawnOutcome) (now : Nat) : List ScriptExecution :=
  match db.find? (fun r => r.id == execution_id) with
  | none => db
  | some execution =>
    let updated : ScriptExecution :=
      match outcome with
      | .completed returncode stdout stderr =>
        { execution with
          status := if returncode == 0 then "completed" else "failed",
          exit_code := some returncode,
          stdout := truncate_output (some stdout),
          stderr := truncate_output (some stderr) }
      | .timeoutExpired =>
        { execution with
          status := "timeout",
          stderr := some ("タイムアウト (" ++ toString script.timeout ++ "秒)") }
      | .osError msg =>
        { execution with
          status := "failed",
          stderr := some ("実行エラー: " ++ msg) }
    let finished : ScriptExecution := { updated with finished_at := some now }
    db.map fun r => if r.id == execution_id then finished else r

/-! ## Claims about `script_executor.py` -/

/-- Helper: a string formed by appending to a non-empty string is non-empty. -/
theorem append_ne_empty_of_left (a b : String) (h : a.length ≠ 0) : a ++ b ≠ "" := by
  intro hab
  apply h
  have hlen := congrArg String.length hab
  rw [String.length_append] at hlen
  have h0 : ("" : String).length = 0 := rfl
  rw [h0] at hlen
  omega

/-- Helper: appending on the right preserves non-zero length. -/
theorem length_append_left_ne_zero (a b : String) (h : a.length ≠ 0) :
    (a ++ b).length ≠ 0 := by
  rw [String.length_append]
  omega

/-- Helper: `List.contains` agrees with list membership. -/
theorem contains_iff_mem (l : List String) (a : String) :
    l.contains a = true ↔ a ∈ l :=
  List.elem_iff

/-- C3: `validate_script` returns ok exactly when the stored path string is
non-empty, the resolved path lies under at least one allow-listed base
directory, the lower-cased extension of the resolved path is in the
platform's permitted set, and the resolved path exists as a regular file;
whenever it returns not-ok the accompanying reason is non-empty. -/
theorem c3_validate_iff {Path : Type} (fs : FSModel Path) (allowed_base_dirs : List Path)
    (is_windows : Bool) (script : AppScript) :
    ((validate_script fs allowed_base_dirs is_windows script).1 = true ↔
      (script.script_path ≠ ""
        ∧ pyLower (fs.suffix (fs.resolve script.script_path))
            ∈ (if is_windows then ALLOWED_EXTENSIONS_WINDOWS else ALLOWED_EXTENSIONS_LINUX)
        ∧ is_in_allowed_dirs fs allowed_base_dirs (fs.resolve script.script_path) = true
        ∧ fs.pathExists (fs.resolve script.script_path) = true
        ∧ fs.isFile (fs.resolve script.script_path) = true))
    ∧ ((validate_script fs allowed_base_dirs is_windows script).1 = false →
        (validate_script fs allowed_base_dirs is_windows script).2 ≠ "") := by
  by_cases h1 : script.script_path = ""
  · constructor
    · unfold validate_script
      simp [h1]
    · unfold validate_script
      simp only [if_pos h1]
      intro _
      decide
  · unfold validate_script
    simp only [if_neg h1]
    rcases hext : (if is_windows then ALLOWED_EXTENSIONS_WINDOWS
        else ALLOWED_EXTENSIONS_LINUX).contains
          (pyLower (fs.suffix (fs.resolve script.script_path))) <;>
      rcases hdir : is_in_allowed_dirs fs allowed_base_dirs
          (fs.resolve script.script_path) <;>
        rcases hex : fs.pathExists (fs.resolve script.script_path) <;>
          rcases hfile : fs.isFile (fs.resolve script.script_path) <;>
            (constructor
             · rw [← contains_iff_mem, hext]
               simp [h1, hdir, hex, hfile]
             · simp only [hext, hdir, hex, hfile, Bool.not_true, Bool.not_false,
                 Bool.false_eq_true, Bool.true_eq_false, if_true, if_false]
               intro hf
               first
                 | exact hf.elim
                 | exact append_ne_empty_of_left _ _ (by decide)
                 | exact append_ne_empty_of_left _ _
                     (length_append_left_ne_zero _ _
                       (length_append_left_ne_zero _ _
                         (length_append_left_ne_zero _ _ (by decide)))))

/-- Concrete filesystem model used by witness theorems: one allow-listed root
"/scripts" containing one regular file "/scripts/run.sh". -/
def sampleFS : FSModel String :=
  { resolve := fun s => s
    suffix := fun p => if p = "/scripts/run.sh" then ".sh" else ""
    pathExists := fun p => p == "/scripts/run.sh"
    isFile := fun p => p == "/scripts/run.sh"
    isUnder := fun p base_dir => base_dir == "/scripts" && p == "/scripts/run.sh"
    pathStr := fun p => p }

/-- Concrete script descriptor used by witness theorems. -/
def sampleScript : AppScript :=
  { id := "s1", app_id := "app1", name := "Run",
    script_path := "/scripts/run.sh", mode := "sync", timeout := 10 }

/-- Witness for `c3_validate_iff` at concrete inputs: the sample script is
accepted, via the right-to-left direction of the equivalence. -/
theorem c3_validate_iff_witness :
    (validate_script sampleFS ["/scripts"] false sampleScript).1 = true :=
  (c3_validate_iff sampleFS ["/scripts"] false sampleScript).1.mpr
    ⟨by decide, by decide, by decide, by decide, by decide⟩

/-- C7: `execute_sync` re-validates first and on validation failure returns
success=false with the reason; on timeout returns success=false with no exit
code and a timeout message; on spawn failure returns success=false with a
diagnostic; otherwise success holds exactly for exit code 0, with the exit
code returned and captured stdout and stderr each truncated by
`truncate_output`; `truncate_output` caps output at `MAX_OUTPUT_SIZE`
characters and appends the fixed marker exactly when the output exceeds
`MAX_OUTPUT_SIZE`, returning shorter output unmodified. -/
theorem c7_execute_sync_behaviour {Path : Type} (fs : FSModel Path)
    (allowed_base_dirs : List Path) (is_windows : Bool) (script : AppScript)
    (outcome : SpawnOutcome) :
    ((validate_script fs allowed_base_dirs is_windows script).1 = false →
      execute_sync fs allowed_base_dirs is_windows script outcome
        = { success := false,
            error_message :=
              some (validate_script fs allowed_base_dirs is_windows script).2 })
    ∧ ((validate_script fs allowed_base_dirs is_windows script).1 = true →
        (outcome = .timeoutExpired →
          execute_sync fs allowed_base_dirs is_windows script outcome
            = { success := false,
                error_message :=
                  some ("タイムアウト (" ++ toString script.timeout ++ "秒)") })
        ∧ (∀ msg, outcome = .osError msg →
          execute_sync fs allowed_base_dirs is_windows script outcome
            = { success := false,
                error_message := some ("実行エラー: " ++ msg) })
        ∧ (∀ returncode stdout stderr,
            outcome = .completed returncode stdout stderr →
          execute_sync fs allowed_base_dirs is_windows script outcome
            = { success := returncode == 0, exit_code := some returncode,
                stdout := truncate_output (some stdout),
                stderr := truncate_output (some stderr) }))
    ∧ (∀ s : String, s.length ≤ MAX_OUTPUT_SIZE → truncate_output (some s) = some s)
    ∧ (∀ s : String, MAX_OUTPUT_SIZE < s.length →
        truncate_output (some s)
          = some (pySlice s MAX_OUTPUT_SIZE ++ "\n... (truncated)")
        ∧ (pySlice s MAX_OUTPUT_SIZE).length = MAX_OUTPUT_SIZE) := by
  refine ⟨?_, ?_, ?_, ?_⟩
  · intro hv
    simp [execute_sync, hv]
  · intro hv
    refine ⟨?_, ?_, ?_⟩
    · rintro rfl
      simp [execute_sync, hv]
    · rintro msg rfl
      simp [execute_sync, hv]
    · rintro returncode stdout stderr rfl
      simp [execute_sync, hv]
  · intro s hs
    have hc : ¬ (s.length > MAX_OUTPUT_SIZE) := by omega
    simp only [truncate_output, if_neg hc]
  · intro s hs
    constructor
    · have hc : s.length > MAX_OUTPUT_SIZE := hs
      simp only [truncate_output, if_pos hc]
    · show (s.data.take MAX_OUTPUT_SIZE).length = MAX_OUTPUT_SIZE
      rw [List.length_take]
      have hdata : s.length = s.data.length := rfl
      omega

/-- Concrete 70000-character output used by the truncation witness. -/
def bigOut : String := String.mk (List.replicate 70000 'a')

/-- Witness for `c7_execute_sync_behaviour` at concrete inputs. -/
theorem c7_execute_sync_behaviour_witness :
    (validate_script sampleFS ["/scripts"] false sampleScript).1 = true
    ∧ execute_sync sampleFS ["/scripts"] false sampleScript
        (.completed 7 "out" "err")
        = { success := (7 : Int) == 0, exit_code := some 7,
            stdout := truncate_output (some "out"),
            stderr := truncate_output (some "err") }
    ∧ truncate_output (some "out") = some "out"
    ∧ MAX_OUTPUT_SIZE < bigOut.length
    ∧ truncate_output (some bigOut)
        = some (pySlice bigOut MAX_OUTPUT_SIZE ++ "\n... (truncated)")
    ∧ (pySlice bigOut MAX_OUTPUT_SIZE).length = MAX_OUTPUT_SIZE := by
  have hbig : MAX_OUTPUT_SIZE < bigOut.length := by
    have h : bigOut.length = 70000 := by
      show (List.replicate 70000 'a').length = 70000
      rw [List.length_replicate]
    rw [h]
    decide
  refine ⟨by decide, ?_, ?_, hbig, ?_, ?_⟩
  · exact ((c7_execute_sync_behaviour sampleFS ["/scripts"] false sampleScript
      (.completed 7 "out" "err")).2.1 (by decide)).2.2 7 "out" "err" rfl
  · exact (c7_execute_sync_behaviour sampleFS ["/scripts"] false sampleScript
      (.completed 7 "out" "err")).2.2.1 "out" (by decide)
  · exact ((c7_execute_sync_behaviour sampleFS ["/scripts"] false sampleScript
      (.completed 7 "out" "err")).2.2.2 bigOut hbig).1
  · exact ((c7_execute_sync_behaviour sampleFS ["/scripts"] false sampleScript
      (.completed 7 "out" "err")).2.2.2 bigOut hbig).2

/-- Expected terminal status written by `_run_async` for each spawn outcome,
as the spec describes it: timeout, failed on non-zero exit or OS error,
completed on zero exit. -/
def async_terminal_status : SpawnOutcome → String
  | .completed returncode _ _ => if returncode == 0 then "completed" else "failed"
  | .timeoutExpired => "timeout"
  | .osError _ => "failed"

/-- C8: when the referenced execution record exists, the background body of
`execute_async` leaves that record in the terminal status determined by the
run outcome (timeout, failed on non-zero exit or spawn error with the error
text in stderr, completed on zero exit), stamps the finish time, and only
ever updates the existing record: the list of record ids is unchanged, no
record is created, and records with other ids are untouched. -/
theorem c8_run_async_terminal (db : List ScriptExecution) (script : AppScript)
    (execution_id : Nat) (outcome : SpawnOutcome) (now : Nat)
    (execution : ScriptExecution)
    (hfound : db.find? (fun r => r.id == execution_id) = some execution) :
    ((run_async db script execution_id outcome now).length = db.length
      ∧ (run_async db script execution_id outcome now).map (fun r => r.id)
          = db.map (fun r => r.id))
    ∧ (∃ r ∈ run_async db script execution_id outcome now, r.id = execution_id)
    ∧ (∀ r ∈ run_async db script execution_id outcome now,
        r.id = execution_id →
          r.status = async_terminal_status outcome
          ∧ (r.status = "completed" ∨ r.status = "failed" ∨ r.status = "timeout")
          ∧ r.finished_at = some now
          ∧ (∀ msg, outcome = .osError msg →
              r.stderr = some ("実行エラー: " ++ msg)))
    ∧ (∀ r ∈ run_async db script execution_id outcome now,
        r.id ≠ execution_id → r ∈ db) := by
  have hexecid : execution.id = execution_id := by
    have := List.find?_some hfound
    simpa using this
  have hmemdb : execution ∈ db := List.mem_of_find?_eq_some hfound
  unfold run_async
  rw [hfound]
  refine ⟨⟨List.length_map _ _, ?_⟩, ?_, ?_, ?_⟩
  · rw [List.map_map]
    apply List.map_congr_left
    intro a _
    by_cases hid : (a.id == execution_id) = true
    · simp only [Function.comp, hid, if_pos]
      have ha : a.id = execution_id := by simpa using hid
      rcases outcome with _ | _ | _ <;> simp [hexecid, ha]
    · simp only [Function.comp]
      rw [if_neg hid]
  · refine ⟨_, List.mem_map_of_mem _ hmemdb, ?_⟩
    rw [if_pos (by simpa using hexecid)]
    rcases outcome with _ | _ | _ <;> simp [hexecid]
  · intro r hr hrid
    rcases List.mem_map.mp hr with ⟨a, _, hfa⟩
    by_cases hid : (a.id == execution_id) = true
    · rw [if_pos hid] at hfa
      subst hfa
      rcases outcome with ⟨rc, out, err⟩ | _ | msg
      · rcases h0 : (rc == (0 : Int)) <;>
          exact ⟨by simp [async_terminal_status, h0], by simp [h0], rfl,
            fun m hm => nomatch hm⟩
      · exact ⟨rfl, by simp, rfl, fun m hm => nomatch hm⟩
      · exact ⟨rfl, by simp, rfl, fun m hm => by cases hm; rfl⟩
    · rw [if_neg hid] at hfa
      subst hfa
      exact absurd (by simpa using hrid) hid
  · intro r hr hrid
    rcases List.mem_map.mp hr with ⟨a, ha, hfa⟩
    by_cases hid : (a.id == execution_id) = true
    · rw [if_pos hid] at hfa
      subst hfa
      rcases outcome with ⟨rc, out, err⟩ | _ | msg <;>
        exact absurd hexecid (by simpa using hrid)
    · rw [if_neg hid] at hfa
      subst hfa
      exact ha

/-- Concrete execution record used by the C8 witness (created in "running"
state before dispatch). -/
def sampleExecution : ScriptExecution :=
  { id := 1, script_id := "s1", app_id := "app1", executed_by := "admin",
    mode := "async", status := "running" }

/-- Witness for `c8_run_async_terminal` at concrete inputs. -/
theorem c8_run_async_terminal_witness :
    ([sampleExecution].find? (fun r => r.id == 1) = some sampleExecution)
    ∧ (run_async [sampleExecution] sampleScript 1 .timeoutExpired 5).length
        = [sampleExecution].length
    ∧ (∃ r ∈ run_async [sampleExecution] sampleScript 1 .timeoutExpired 5,
        r.id = 1) :=
  ⟨rfl,
   (c8_run_async_terminal [sampleExecution] sampleScript 1 .timeoutExpired 5
      sampleExecution rfl).1.1,
   (c8_run_async_terminal [sampleExecution] sampleScript 1 .timeoutExpired 5
      sampleExecution rfl).2.1⟩

/-! ## `github_client.py` -/

/-- Embeds the `ReleaseAsset` dataclass of `github_client.py`. -/
structure ReleaseAsset where
  name : String
  size : Nat
  download_url : String
  content_type : String
  deriving DecidableEq, Repr

/-- Embeds the `Release` dataclass of `github_client.py` (the publish
timestamp is abstracted to a natural number). -/
structure Release where
  tag_name : String
  name : String
  body : String
  published_at : Nat
  assets : List ReleaseAsset
  deriving DecidableEq, Repr

/-- Possible outcomes of the `urllib.request.urlopen` call inside
`GitHubClient._request`: success, an `HTTPError` with status code and reason
phrase, a non-HTTP `URLError` with a reason, or a timeout
(`TimeoutError` / `socket.timeout`). -/
inductive RequestOutcome
  | success
  | httpError (code : Nat) (reason : String)
  | urlError (reason : String)
  | timeout
  deriving DecidableEq, Repr

/-- Embeds the error translation of `GitHubClient._request`: the
`GitHubClientError` message raised for each failing outcome (the `elif`
chain on the HTTP status code), `none` on success. -/
def request_error (endpoint : String) : RequestOutcome → Option String
  | .success => none
  | .httpError code reason =>
    if code = 404 then some ("リソースが見つかりません: " ++ endpoint)
    else if code = 401 then some "認証に失敗しました。GitHub Tokenを確認してください。"
    else if code = 403 then some "アクセスが拒否されました。権限を確認してください。"
    else some ("GitHub API エラー: " ++ toString code ++ " " ++ reason)
  | .urlError reason => some ("ネットワークエラー: " ++ reason)
  | .timeout => some "リクエストがタイムアウトしました"

/-- Embeds the error translation of `GitHubClient.download_asset`:
`URLError` and timeout map to their `GitHubClientError` messages, `none` on
success (`HTTPError` is a subclass of `URLError` and takes the same branch). -/
def download_asset_error : RequestOutcome → Option String
  | .success => none
  | .httpError _ reason => some ("ダウンロードエラー: " ++ reason)
  | .urlError reason => some ("ダウンロードエラー: " ++ reason)
  | .timeout => some "ダウンロードがタイムアウトしました"

/-- Embeds the Python substring test `pat in s` on character lists: `pat`
occurs contiguously in the list. -/
def containsSub (pat : List Char) : List Char → Bool
  | [] => pat.isPrefixOf ([] : List Char)
  | c :: rest => pat.isPrefixOf (c :: rest) || containsSub pat rest

/-- Embeds the Python substring test `pat in s` for strings. -/
def pyContains (s pat : String) : Bool := containsSub pat.data s.data

/-- Embeds `GitHubClient.get_latest_release`: one `_request` on the
latest-release endpoint; a `GitHubClientError` whose message contains
"見つかりません" yields `none`, any other error is re-raised; on success the
release parsed from the response (abstracted as `parsed`) is returned. -/
def get_latest_release (owner repo : String) (outcome : RequestOutcome)
    (parsed : Release) : Except String (Option Release) :=
  let endpoint := "/repos/" ++ owner ++ "/" ++ repo ++ "/releases/latest"
  match request_error endpoint outcome with
  | none => .ok (some parsed)
  | some msg =>
    if pyContains msg "見つかりません" then .ok none
    else .error msg

/-- Embeds `GitHubClient.get_releases`: one `_request` on the release-list
endpoint; every failure is propagated unchanged (the method catches
nothing); on success the releases parsed from the response (abstracted as
`parsed_list`) are returned. -/
def get_releases (owner repo : String) (per_page : Nat)
    (outcome : RequestOutcome) (parsed_list : List Release) :
    Except String (List Release) :=
  let endpoint := "/repos/" ++ owner ++ "/" ++ repo ++ "/releases?per_page="
    ++ toString per_page
  match request_error endpoint outcome with
  | none => .ok parsed_list
  | some msg => .error msg

/-- Embeds `AppInstaller.check_update`, given the result of
`get_latest_release` for the repository. -/
def check_update (latest : Option Release) (current_version : Option String) :
    Option Release :=
  match latest with
  | none => none
  | some l =>
    match current_version with
    | none => some l
    | some v => if l.tag_name ≠ v then some l else none

/-- Concrete release asset used by witness theorems. -/
def sampleAsset : ReleaseAsset :=
  { name := "app-v1.0.0.zip", size := 1024,
    download_url := "https://example.com/app-v1.0.0.zip",
    content_type := "application/zip" }

/-- Concrete release used by witness theorems. -/
def sampleRelease : Release :=
  { tag_name := "v1.0.0", name := "Release v1.0.0", body := "",
    published_at := 0, assets := [sampleAsset] }

/-- C5: `check_update` returns the latest release exactly when one exists
and the current version is absent or differs from its tag under plain
string comparison (no semantic version ordering); it returns nothing when
no release exists or the latest tag equals the current version. -/
theorem c5_check_update (latest : Option Release) (current_version : Option String) :
    (∀ r, check_update latest current_version = some r ↔
      (latest = some r
        ∧ (current_version = none ∨ current_version ≠ some r.tag_name)))
    ∧ (check_update latest current_version = none ↔
        (latest = none
          ∨ ∃ r, latest = some r ∧ current_version = some r.tag_name)) := by
  rcases latest with _ | l
  · simp [check_update]
  · rcases current_version with _ | v
    · simp [check_update]
    · by_cases h : l.tag_name = v
      · subst h
        constructor
        · intro r
          simp [check_update]
          rintro rfl
          simp
        · simp [check_update]
      · constructor
        · intro r
          simp only [check_update, if_pos (by exact h)]
          constructor
          · rintro he
            cases he
            exact ⟨rfl, Or.inr (by simp [eq_comm]; exact fun hh => h hh.symm)⟩
          · rintro ⟨he, _⟩
            cases he
            rfl
        · simp only [check_update, if_pos (by exact h)]
          constructor
          · intro he
            cases he
          · rintro (he | ⟨r, he, hv⟩)
            · cases he
            · cases he
              cases hv
              exact absurd rfl h

/-- Witness for `c5_check_update` at concrete inputs. -/
theorem c5_check_update_witness :
    check_update (some sampleRelease) (some "v1.0.0") = none
    ∧ check_update (some sampleRelease) (some "v0.9.0") = some sampleRelease
    ∧ check_update none (some "v1.0.0") = none
    ∧ check_update (some sampleRelease) none = some sampleRelease :=
  ⟨(c5_check_update (some sampleRelease) (some "v1.0.0")).2.mpr
      (Or.inr ⟨sampleRelease, rfl, rfl⟩),
   ((c5_check_update (some sampleRelease) (some "v0.9.0")).1 sampleRelease).mpr
      ⟨rfl, Or.inr (by decide)⟩,
   (c5_check_update none (some "v1.0.0")).2.mpr (Or.inl rfl),
   ((c5_check_update (some sampleRelease) none).1 sampleRelease).mpr
      ⟨rfl, Or.inl rfl⟩⟩

/-- Helper: the empty pattern occurs in every list. -/
theorem containsSub_nil (t : List Char) : containsSub [] t = true := by
  cases t <;> simp [containsSub, List.isPrefixOf]

/-- Helper: a pattern occurring in a list still occurs after appending on
the right. -/
theorem containsSub_append_right (pat l t : List Char)
    (h : containsSub pat l = true) : containsSub pat (l ++ t) = true := by
  induction l with
  | nil =>
    have hp : pat = [] := by
      simpa [containsSub, List.isPrefixOf_iff_prefix] using h
    subst hp
    exact containsSub_nil t
  | cons c rest ih =>
    rw [List.cons_append]
    simp only [containsSub, Bool.or_eq_true] at h ⊢
    rcases h with h | h
    · left
      rw [List.isPrefixOf_iff_prefix] at h ⊢
      exact h.trans (List.prefix_append _ _)
    · right
      exact ih h

/-- Helper: two strings differ when the first two characters of their
underlying lists differ. -/
theorem string_ne_of_take2 (a b : String) (h : a.data.take 2 ≠ b.data.take 2) :
    a ≠ b :=
  fun he => h (by rw [he])

/-- Helper: the first two characters of an appended string are those of the
left part when it has at least two characters. -/
theorem take2_append (a x : String) (ha : 2 ≤ a.data.length) :
    (a ++ x).data.take 2 = a.data.take 2 := by
  rw [String.data_append]
  exact List.take_append_of_le_length ha

/-- Helper: appending preserves having at least two characters. -/
theorem two_le_data_length_append (a x : String) (h : 2 ≤ a.data.length) :
    2 ≤ (a ++ x).data.length := by
  rw [String.data_append, List.length_append]
  omega

/-- Helper: strings differing in their first `n` characters differ. -/
theorem string_ne_of_take_n (n : Nat) (a b : String)
    (h : a.data.take n ≠ b.data.take n) : a ≠ b :=
  fun he => h (by rw [he])

/-- Helper: the first `n` characters of an appended string are those of the
left part when it has at least `n` characters. -/
theorem take_n_append (n : Nat) (a x : String) (ha : n ≤ a.data.length) :
    (a ++ x).data.take n = a.data.take n := by
  rw [String.data_append]
  exact List.take_append_of_le_length ha

/-- C9 (amended): `get_latest_release` returns an empty result (not an
error) whenever the request fails with a message containing the marker
"見つかりません" — in particular for every 404, which is how the API reports
a repository with no releases; every `get_latest_release` failure whose
message does not contain that marker (401, 403 and timeout always;
other-HTTP and transport failures whenever the server-supplied reason does
not itself contain the marker) is re-raised as a typed error;
`get_releases` propagates every `_request` failure as a typed error; the
six `_request` failure categories map to pairwise distinct operator-facing
messages; and `download_asset` distinguishes only download failure from
download timeout — because `HTTPError` is a subclass of `URLError`, every
HTTP-status failure (not-found, unauthenticated, forbidden, other-HTTP)
collapses into the same transport-failure message as a plain network
error, though that message is still distinct from the timeout one. -/
theorem c9_release_source_errors (owner repo endpoint : String)
    (parsed : Release) (per_page : Nat) (parsed_list : List Release)
    (code : Nat) (r1 r2 r3 : String)
    (hc4 : code ≠ 404) (hc1 : code ≠ 401) (hc3 : code ≠ 403) :
    (get_latest_release owner repo .success parsed = .ok (some parsed))
    ∧ (∀ reason, get_latest_release owner repo (.httpError 404 reason) parsed
        = .ok none)
    ∧ (∀ reason, get_latest_release owner repo (.httpError 401 reason) parsed
        = .error "認証に失敗しました。GitHub Tokenを確認してください。")
    ∧ (∀ reason, get_latest_release owner repo (.httpError 403 reason) parsed
        = .error "アクセスが拒否されました。権限を確認してください。")
    ∧ (get_latest_release owner repo .timeout parsed
        = .error "リクエストがタイムアウトしました")
    ∧ (¬ pyContains ("GitHub API エラー: " ++ toString code ++ " " ++ r1)
          "見つかりません" = true →
        get_latest_release owner repo (.httpError code r1) parsed
          = .error ("GitHub API エラー: " ++ toString code ++ " " ++ r1))
    ∧ (¬ pyContains ("ネットワークエラー: " ++ r2) "見つかりません" = true →
        get_latest_release owner repo (.urlError r2) parsed
          = .error ("ネットワークエラー: " ++ r2))
    ∧ (request_error endpoint (.httpError 404 r3)
        = some ("リソースが見つかりません: " ++ endpoint)
      ∧ request_error endpoint (.httpError 401 r3)
        = some "認証に失敗しました。GitHub Tokenを確認してください。"
      ∧ request_error endpoint (.httpError 403 r3)
        = some "アクセスが拒否されました。権限を確認してください。"
      ∧ request_error endpoint (.httpError code r1)
        = some ("GitHub API エラー: " ++ toString code ++ " " ++ r1)
      ∧ request_error endpoint (.urlError r2)
        = some ("ネットワークエラー: " ++ r2)
      ∧ request_error endpoint .timeout = some "リクエストがタイムアウトしました")
    ∧ (("リソースが見つかりません: " ++ endpoint)
          ≠ "認証に失敗しました。GitHub Tokenを確認してください。"
      ∧ ("リソースが見つかりません: " ++ endpoint)
          ≠ "アクセスが拒否されました。権限を確認してください。"
      ∧ ("リソースが見つかりません: " ++ endpoint)
          ≠ ("GitHub API エラー: " ++ toString code ++ " " ++ r1)
      ∧ ("リソースが見つかりません: " ++ endpoint)
          ≠ ("ネットワークエラー: " ++ r2)
      ∧ ("リソースが見つかりません: " ++ endpoint)
          ≠ "リクエストがタイムアウトしました"
      ∧ ("認証に失敗しました。GitHub Tokenを確認してください。" : String)
          ≠ "アクセスが拒否されました。権限を確認してください。"
      ∧ "認証に失敗しました。GitHub Tokenを確認してください。"
          ≠ ("GitHub API エラー: " ++ toString code ++ " " ++ r1)
      ∧ "認証に失敗しました。GitHub Tokenを確認してください。"
          ≠ ("ネットワークエラー: " ++ r2)
      ∧ ("認証に失敗しました。GitHub Tokenを確認してください。" : String)
          ≠ "リクエストがタイムアウトしました"
      ∧ "アクセスが拒否されました。権限を確認してください。"
          ≠ ("GitHub API エラー: " ++ toString code ++ " " ++ r1)
      ∧ "アクセスが拒否されました。権限を確認してください。"
          ≠ ("ネットワークエラー: " ++ r2)
      ∧ ("アクセスが拒否されました。権限を確認してください。" : String)
          ≠ "リクエストがタイムアウトしました"
      ∧ ("GitHub API エラー: " ++ toString code ++ " " ++ r1)
          ≠ ("ネットワークエラー: " ++ r2)
      ∧ ("GitHub API エラー: " ++ toString code ++ " " ++ r1)
          ≠ "リクエストがタイムアウトしました"
      ∧ ("ネットワークエラー: " ++ r2) ≠ "リクエストがタイムアウトしました")
    ∧ (get_releases owner repo per_page .success parsed_list = .ok parsed_list)
    ∧ (∀ o msg,
        request_error ("/repos/" ++ owner ++ "/" ++ repo ++ "/releases?per_page="
            ++ toString per_page) o = some msg →
        get_releases owner repo per_page o parsed_list = .error msg)
    ∧ (∀ c reason, download_asset_error (.httpError c reason)
        = some ("ダウンロードエラー: " ++ reason))
    ∧ (∀ reason, download_asset_error (.urlError reason)
        = some ("ダウンロードエラー: " ++ reason))
    ∧ (download_asset_error .timeout = some "ダウンロードがタイムアウトしました")
    ∧ (∀ c c' reason,
        download_asset_error (.httpError c reason)
          = download_asset_error (.urlError reason)
        ∧ download_asset_error (.httpError c reason)
          = download_asset_error (.httpError c' reason))
    ∧ (∀ reason,
        ("ダウンロードエラー: " ++ reason)
          ≠ "ダウンロードがタイムアウトしました") := by
  have h404 : ∀ e : String,
      ("リソースが見つかりません: " ++ e).data.take 2
        = "リソースが見つかりません: ".data.take 2 :=
    fun e => take2_append _ _ (by decide)
  have hG : ∀ (c : Nat) (r : String),
      ("GitHub API エラー: " ++ toString c ++ " " ++ r).data.take 2
        = "GitHub API エラー: ".data.take 2 := fun c r => by
    rw [take2_append _ _
        (two_le_data_length_append _ _ (two_le_data_length_append _ _ (by decide))),
      take2_append _ _ (two_le_data_length_append _ _ (by decide)),
      take2_append _ _ (by decide)]
  have hN : ∀ r : String,
      ("ネットワークエラー: " ++ r).data.take 2
        = "ネットワークエラー: ".data.take 2 :=
    fun r => take2_append _ _ (by decide)
  have hreq : ∀ reason, request_error ("/repos/" ++ owner ++ "/" ++ repo
      ++ "/releases/latest") (.httpError code reason)
      = some ("GitHub API エラー: " ++ toString code ++ " " ++ reason) := by
    intro reason
    simp only [request_error, if_neg hc4, if_neg hc1, if_neg hc3]
  refine ⟨rfl, ?_, ?_, ?_, ?_, ?_, ?_, ?_, ?_, rfl, ?_, ?_, ?_, rfl, ?_, ?_⟩
  · intro reason
    have h : request_error ("/repos/" ++ owner ++ "/" ++ repo ++ "/releases/latest")
        (.httpError 404 reason)
        = some ("リソースが見つかりません: "
            ++ ("/repos/" ++ owner ++ "/" ++ repo ++ "/releases/latest")) := by
      simp [request_error]
    have hin : pyContains ("リソースが見つかりません: "
        ++ ("/repos/" ++ owner ++ "/" ++ repo ++ "/releases/latest"))
        "見つかりません" = true := by
      unfold pyContains
      rw [String.data_append]
      exact containsSub_append_right _ _ _ (by decide)
    simp only [get_latest_release, h]
    rw [if_pos hin]
  · intro reason
    have h : request_error ("/repos/" ++ owner ++ "/" ++ repo ++ "/releases/latest")
        (.httpError 401 reason)
        = some "認証に失敗しました。GitHub Tokenを確認してください。" := by
      simp [request_error]
    simp only [get_latest_release, h]
    rw [if_neg (by decide)]
  · intro reason
    have h : request_error ("/repos/" ++ owner ++ "/" ++ repo ++ "/releases/latest")
        (.httpError 403 reason)
        = some "アクセスが拒否されました。権限を確認してください。" := by
      simp [request_error]
    simp only [get_latest_release, h]
    rw [if_neg (by decide)]
  · have h : request_error ("/repos/" ++ owner ++ "/" ++ repo ++ "/releases/latest")
        RequestOutcome.timeout = some "リクエストがタイムアウトしました" := rfl
    simp only [get_latest_release, h]
    rw [if_neg (by decide)]
  · intro hni
    simp only [get_latest_release, hreq r1]
    rw [if_neg hni]
  · intro hni
    have h : request_error ("/repos/" ++ owner ++ "/" ++ repo ++ "/releases/latest")
        (.urlError r2) = some ("ネットワークエラー: " ++ r2) := rfl
    simp only [get_latest_release, h]
    rw [if_neg hni]
  · refine ⟨?_, ?_, ?_, ?_, rfl, rfl⟩
    · simp [request_error]
    · simp [request_error]
    · simp [request_error]
    · simp only [request_error, if_neg hc4, if_neg hc1, if_neg hc3]
  · refine ⟨?_, ?_, ?_, ?_, ?_, by decide, ?_, ?_, by decide, ?_, ?_, by decide,
      ?_, ?_, ?_⟩
    · exact string_ne_of_take2 _ _ (by rw [h404 _]; decide)
    · exact string_ne_of_take2 _ _ (by rw [h404 _]; decide)
    · exact string_ne_of_take2 _ _ (by rw [h404 _, hG code r1]; decide)
    · exact string_ne_of_take2 _ _ (by rw [h404 _, hN r2]; decide)
    · exact string_ne_of_take2 _ _ (by rw [h404 _]; decide)
    · exact string_ne_of_take2 _ _ (by rw [hG code r1]; decide)
    · exact string_ne_of_take2 _ _ (by rw [hN r2]; decide)
    · exact string_ne_of_take2 _ _ (by rw [hG code r1]; decide)
    · exact string_ne_of_take2 _ _ (by rw [hN r2]; decide)
    · exact string_ne_of_take2 _ _ (by rw [hG code r1, hN r2]; decide)
    · exact string_ne_of_take2 _ _ (by rw [hG code r1]; decide)
    · exact string_ne_of_take2 _ _ (by rw [hN r2]; decide)
  · intro o msg h
    simp only [get_releases, h]
  · intro c reason
    rfl
  · intro reason
    rfl
  · intro c c' reason
    exact ⟨rfl, rfl⟩
  · intro reason
    exact string_ne_of_take_n 7 _ _ (by rw [take_n_append 7 _ _ (by decide)]; decide)

/-- C9 counterexample, two independent refutations of the claim as stated.
First, a 500 response whose reason phrase contains the text "見つかりません"
makes `get_latest_release` return a successful empty result instead of
re-raising a typed error, because the source distinguishes the not-found
case by substring-matching the exception message rather than by the status
code.  Second, `download_asset` does not give the six failure categories
distinct messages: `HTTPError` is a subclass of `URLError`, so a 404, a
403, a 500 and a plain network failure with the same reason phrase all
produce the identical "ダウンロードエラー" message. -/
theorem c9_counterexample :
    (get_latest_release "o" "r" (.httpError 500 "見つかりません") sampleRelease
      = .ok none)
    ∧ download_asset_error (.httpError 404 "Connection reset")
        = download_asset_error (.urlError "Connection reset")
    ∧ download_asset_error (.httpError 404 "Connection reset")
        = download_asset_error (.httpError 403 "Connection reset")
    ∧ download_asset_error (.httpError 404 "Connection reset")
        = download_asset_error (.httpError 500 "Connection reset")
    ∧ download_asset_error (.httpError 404 "Connection reset")
        = some ("ダウンロードエラー: " ++ "Connection reset") :=
  ⟨rfl, rfl, rfl, rfl, rfl⟩

/-- Witness for `c9_release_source_errors` at concrete inputs. -/
theorem c9_release_source_errors_witness :
    ((500 : Nat) ≠ 404 ∧ (500 : Nat) ≠ 401 ∧ (500 : Nat) ≠ 403)
    ∧ get_latest_release "o" "r" (.httpError 404 "Not Found") sampleRelease
        = .ok none
    ∧ get_latest_release "o" "r" .timeout sampleRelease
        = .error "リクエストがタイムアウトしました"
    ∧ get_latest_release "o" "r" (.httpError 500 "Internal Server Error")
          sampleRelease
        = .error ("GitHub API エラー: " ++ toString (500 : Nat) ++ " "
            ++ "Internal Server Error")
    ∧ get_releases "o" "r" 10 (.httpError 401 "Unauthorized") [sampleRelease]
        = .error "認証に失敗しました。GitHub Tokenを確認してください。"
    ∧ download_asset_error (.httpError 404 "Not Found")
        = some ("ダウンロードエラー: " ++ "Not Found")
    ∧ ("ダウンロードエラー: " ++ "Not Found")
        ≠ "ダウンロードがタイムアウトしました" := by
  obtain ⟨h1, h2, h3, h4, h5, h6, h7, h8, h9, h10, h11, h12, h13, h14, h15,
      h16⟩ :=
    c9_release_source_errors "o" "r" "/x" sampleRelease 10 [sampleRelease]
      500 "Internal Server Error" "net" "reason" (by decide) (by decide)
      (by decide)
  exact ⟨⟨by decide, by decide, by decide⟩, h2 "Not Found", h5, h6 (by decide),
    h11 (.httpError 401 "Unauthorized")
      "認証に失敗しました。GitHub Tokenを確認してください。" (by decide),
    h12 404 "Not Found", h16 "Not Found"⟩

/-! ## `AppInstaller.install` and `_extract_zip` -/

/-- Embeds the Python `str.startswith` test on the character lists. -/
def pyStartsWith (s pre : String) : Bool := pre.data.isPrefixOf s.data

/-- Embeds the Python `str.endswith` test on the character lists. -/
def pyEndsWith (s suf : String) : Bool := suf.data.isSuffixOf s.data

/-- Embeds the Python slice `s[n:]` (drop the first `n` characters). -/
def pyDrop (s : String) (n : Nat) : String := ⟨s.data.drop n⟩

/-- Embeds `name.split("/")[0]`: the characters before the first "/". -/
def firstComponent (s : String) : String := ⟨s.data.takeWhile (fun c => c ≠ '/')⟩

/-- Embeds `AppInstaller._find_zip_asset`: the first asset whose name ends
in ".zip". -/
def find_zip_asset (release : Release) : Option ReleaseAsset :=
  release.assets.find? fun asset => pyEndsWith asset.name ".zip"

/-- Embeds `AppInstaller._extract_zip` on the archive's entry list (entry
name paired with its content).  The destination directory is freshly created
by `mkdir(parents=True, exist_ok=True)`, so after a full extraction its
content is exactly the returned list: when every entry name starts with the
first entry's first path component followed by "/", that component is
stripped from each name (entries whose stripped name is empty — the wrapper
directory itself — are skipped); otherwise the archive is extracted as-is. -/
def extract_zip (entries : List (String × String)) : List (String × String) :=
  let names := entries.map Prod.fst
  match names with
  | [] => entries
  | n0 :: _ =>
    let root_dir := firstComponent n0
    if names.all (fun n => pyStartsWith n (root_dir ++ "/")) then
      entries.filterMap fun member =>
        if pyStartsWith member.1 (root_dir ++ "/") then
          let stripped := pyDrop member.1 (root_dir.length + 1)
          if stripped ≠ "" then some (stripped, member.2) else none
        else none
    else
      entries

/-- On-disk state relevant to `AppInstaller.install`: the app directory and
its sibling ".backup" directory, each absent or present with a content (a
list of relative-path / file-content pairs). -/
structure InstallDisk where
  appDir : Option (List (String × String))
  backupDir : Option (List (String × String))
  deriving DecidableEq, Repr

/-- Outcome of the body of the `try` block of `install`: the asset downloads
and unpacks fully (yielding the archive's entries), or `download_asset`
raises (the app directory untouched — only the private temp file was
written), or `_extract_zip` raises partway (the app directory was created
and holds whatever was extracted before the failure, possibly nothing). -/
inductive FetchOutcome
  | unpacked (entries : List (String × String))
  | downloadError (msg : String)
  | extractError (msg : String) (partialContent : List (String × String))
  deriving DecidableEq, Repr

/-- Embeds the `except` branch of `AppInstaller.install`: when this install
made a backup and it still exists, delete any partial app directory and move
the backup back; in every case re-raise as a `GitHubClientError`. -/
def install_except (st : InstallDisk) (backup_made : Bool) (msg : String) :
    Except String String × InstallDisk :=
  if backup_made && st.backupDir.isSome then
    (.error ("インストールに失敗しました: " ++ msg),
     { appDir := st.backupDir, backupDir := none })
  else
    (.error ("インストールに失敗しました: " ++ msg), st)

/-- Embeds `AppInstaller.install` from the point where the release and its
zip asset are known: the backup phase (clear a stale backup, then
`shutil.move` an existing app directory to the ".backup" sibling), the
download-and-unpack phase via the `outcome` oracle, the success path
(delete the backup made by this install, return the tag) and the `except`
path. -/
def install_phase (pre : InstallDisk) (tag : String) (outcome : FetchOutcome) :
    Except String String × InstallDisk :=
  let backup_made := pre.appDir.isSome
  let afterBackup : InstallDisk :=
    match pre.appDir with
    | some content => { appDir := none, backupDir := some content }
    | none => pre
  match outcome with
  | .unpacked entries =>
    let installed : InstallDisk :=
      { afterBackup with appDir := some (extract_zip entries) }
    if backup_made && installed.backupDir.isSome then
      (.ok tag, { installed with backupDir := none })
    else
      (.ok tag, installed)
  | .downloadError msg =>
    install_except afterBackup backup_made msg
  | .extractError msg partialContent =>
    install_except { afterBackup with appDir := some partialContent }
      backup_made msg

/-- Embeds `AppInstaller.install` end to end: resolve the release (fetch
latest when the argument is omitted, typed error when none exists), find the
first ".zip" asset (typed error when none), then run the backup /
download / unpack / rollback phase on the disk state. -/
def install (owner repo : String) (latest_from_api : Option Release)
    (release_arg : Option Release) (pre : InstallDisk) (outcome : FetchOutcome) :
    Except String String × InstallDisk :=
  let release := match release_arg with
    | some r => some r
    | none => latest_from_api
  match release with
  | none =>
    (.error ("リリースが見つかりません: " ++ owner ++ "/" ++ repo), pre)
  | some r =>
    match find_zip_asset r with
    | none =>
      (.error "インストール可能なアセット（zip）が見つかりません", pre)
    | some _ => install_phase pre r.tag_name outcome

/-- C1 counterexample: with no pre-existing install directory D, a failure
inside `_extract_zip` (raised after `mkdir` already created D) leaves a
partial D behind: no backup was made, the `except` branch restores nothing,
and the on-disk state does not end as it began — D now exists. -/
theorem c1_counterexample :
    (install "o" "r" none (some sampleRelease)
        { appDir := none, backupDir := none } (.extractError "disk full" [])).2
      = { appDir := some [], backupDir := none }
    ∧ ({ appDir := some [], backupDir := none } : InstallDisk)
        ≠ { appDir := none, backupDir := none }
    ∧ (install "o" "r" none (some sampleRelease)
        { appDir := none, backupDir := none } (.extractError "disk full" [])).1
      = .error ("インストールに失敗しました: " ++ "disk full") :=
  ⟨rfl, by decide, rfl⟩

/-- C1 (amended): when the install directory existed before the install, any
failure during download or unpack deletes the partial directory, renames the
backup back, and raises a typed `GitHubClientError`: the app directory ends
exactly as it began and no backup directory remains.  (When the directory
did not exist beforehand no backup is made, the `except` branch restores
nothing, and an unpack failure can leave a partial directory behind — see
`c1_counterexample`.) -/
theorem c1_rollback_restores (owner repo : String) (latest : Option Release)
    (r : Release) (asset : ReleaseAsset)
    (content partialContent : List (String × String))
    (backup0 : Option (List (String × String))) (msg : String)
    (hasset : find_zip_asset r = some asset) :
    install owner repo latest (some r)
        { appDir := some content, backupDir := backup0 } (.downloadError msg)
      = (.error ("インストールに失敗しました: " ++ msg),
         { appDir := some content, backupDir := none })
    ∧ install owner repo latest (some r)
        { appDir := some content, backupDir := backup0 }
        (.extractError msg partialContent)
      = (.error ("インストールに失敗しました: " ++ msg),
         { appDir := some content, backupDir := none }) := by
  constructor <;>
    simp [install, hasset, install_phase, install_except]

/-- Witness for `c1_rollback_restores` at concrete inputs (the repository's
own test scenario: an existing install with one file, a failing download). -/
theorem c1_rollback_restores_witness :
    find_zip_asset sampleRelease = some sampleAsset
    ∧ install "o" "r" none (some sampleRelease)
        { appDir := some [("existing.txt", "existing data")], backupDir := none }
        (.downloadError "download failed")
      = (.error ("インストールに失敗しました: " ++ "download failed"),
         { appDir := some [("existing.txt", "existing data")],
           backupDir := none }) :=
  ⟨rfl,
   (c1_rollback_restores "o" "r" none sampleRelease sampleAsset
      [("existing.txt", "existing data")] [] none "download failed" rfl).1⟩

/-- Helper: `pyStartsWith` agrees with the list-prefix relation. -/
theorem pyStartsWith_iff (s pre : String) :
    pyStartsWith s pre = true ↔ pre.data <+: s.data := by
  simp [pyStartsWith, List.isPrefixOf_iff_prefix]

/-- Helper: the character count of `root ++ "/"`. -/
theorem root_slash_data_length (root : String) :
    (root ++ "/").data.length = root.length + 1 := by
  rw [String.data_append, List.length_append]
  rfl

/-- Helper: a string starting with `pre` is `pre` followed by the remainder
that the slice `s[len(pre):]` yields. -/
theorem eq_append_of_pyStartsWith (s pre : String)
    (h : pyStartsWith s pre = true) :
    s = pre ++ pyDrop s pre.data.length := by
  rcases (pyStartsWith_iff s pre).mp h with ⟨t, ht⟩
  apply String.ext
  rw [String.data_append]
  show s.data = pre.data ++ (s.data.drop pre.data.length)
  rw [← ht, List.drop_left]

/-- Helper: when every entry name starts with the wrapper prefix
`firstComponent n0 ++ "/"` (the archive has one common top-level wrapper
directory), `extract_zip` strips the wrapper: its result holds exactly the
archive entries with the wrapper removed, minus those whose stripped name is
empty (the wrapper directory entry itself). -/
theorem extract_zip_strip (entries : List (String × String)) (n0 : String)
    (rest : List String) (hnames : entries.map Prod.fst = n0 :: rest)
    (hall : (entries.map Prod.fst).all
      (fun n => pyStartsWith n (firstComponent n0 ++ "/")) = true) :
    ∀ x : String × String,
      x ∈ extract_zip entries ↔
        x.1 ≠ "" ∧ (firstComponent n0 ++ "/" ++ x.1, x.2) ∈ entries := by
  intro x
  have hall' : (n0 :: rest).all
      (fun n => pyStartsWith n (firstComponent n0 ++ "/")) = true := by
    rw [← hnames]
    exact hall
  simp only [extract_zip, hnames]
  rw [if_pos hall']
  rw [List.mem_filterMap]
  constructor
  · rintro ⟨a, ha, hfa⟩
    have hsw : pyStartsWith a.1 (firstComponent n0 ++ "/") = true :=
      (List.all_eq_true.mp hall) a.1 (List.mem_map_of_mem _ ha)
    rw [if_pos hsw] at hfa
    by_cases hne : pyDrop a.1 ((firstComponent n0).length + 1) ≠ ""
    · rw [if_pos hne] at hfa
      cases hfa
      refine ⟨hne, ?_⟩
      have ha1 : a.1 = (firstComponent n0 ++ "/")
          ++ pyDrop a.1 ((firstComponent n0).length + 1) := by
        have h := eq_append_of_pyStartsWith a.1 (firstComponent n0 ++ "/") hsw
        rwa [root_slash_data_length] at h
      have hpair : (firstComponent n0 ++ "/"
          ++ pyDrop a.1 ((firstComponent n0).length + 1), a.2) = a := by
        rw [← ha1]
      dsimp only
      rw [hpair]
      exact ha
    · rw [if_neg hne] at hfa
      cases hfa
  · rintro ⟨hne, hmem⟩
    refine ⟨(firstComponent n0 ++ "/" ++ x.1, x.2), hmem, ?_⟩
    dsimp only
    have hsw : pyStartsWith (firstComponent n0 ++ "/" ++ x.1)
        (firstComponent n0 ++ "/") = true :=
      (pyStartsWith_iff _ _).mpr
        (by rw [String.data_append]; exact List.prefix_append _ _)
    rw [if_pos hsw]
    have hdrop : pyDrop (firstComponent n0 ++ "/" ++ x.1)
        ((firstComponent n0).length + 1) = x.1 := by
      apply String.ext
      show ((firstComponent n0 ++ "/") ++ x.1).data.drop
          ((firstComponent n0).length + 1) = x.1.data
      rw [String.data_append, ← root_slash_data_length (firstComponent n0),
        List.drop_left]
    rw [hdrop, if_pos hne]

/-- C6: a successful install unpacks the chosen archive into the app
directory so that its contents are exactly the extracted payload — the
single common top-level wrapper directory is stripped when present,
otherwise the archive is unpacked as-is — the backup made by this install
is deleted, and the release's tag is returned. -/
theorem c6_install_success (owner repo : String) (latest : Option Release)
    (r : Release) (asset : ReleaseAsset) (pre : InstallDisk)
    (entries : List (String × String))
    (hasset : find_zip_asset r = some asset) :
    install owner repo latest (some r) pre (.unpacked entries)
      = (.ok r.tag_name,
         { appDir := some (extract_zip entries),
           backupDir := if pre.appDir.isSome then none else pre.backupDir })
    ∧ (pre.appDir.isSome = true →
        (install owner repo latest (some r) pre (.unpacked entries)).2.backupDir
          = none)
    ∧ (∀ n0 rest, entries.map Prod.fst = n0 :: rest →
        ((entries.map Prod.fst).all
            (fun n => pyStartsWith n (firstComponent n0 ++ "/")) = true →
          ∀ x : String × String,
            x ∈ extract_zip entries ↔
              x.1 ≠ "" ∧ (firstComponent n0 ++ "/" ++ x.1, x.2) ∈ entries)
        ∧ ((entries.map Prod.fst).all
            (fun n => pyStartsWith n (firstComponent n0 ++ "/")) = false →
          extract_zip entries = entries))
    ∧ (entries.map Prod.fst = [] → extract_zip entries = entries) := by
  have hmain : install owner repo latest (some r) pre (.unpacked entries)
      = (.ok r.tag_name,
         { appDir := some (extract_zip entries),
           backupDir := if pre.appDir.isSome then none else pre.backupDir }) := by
    rcases pre with ⟨appDir0, backupDir0⟩
    rcases appDir0 with _ | content <;>
      simp [install, hasset, install_phase]
  refine ⟨hmain, ?_, ?_, ?_⟩
  · intro hsome
    rw [hmain]
    simp [hsome]
  · intro n0 rest hnames
    constructor
    · intro hall
      exact extract_zip_strip entries n0 rest hnames hall
    · intro hallf
      simp only [extract_zip, hnames]
      rw [if_neg]
      rw [← hnames]
      simp [hallf]
  · intro hnil
    simp only [extract_zip, hnil]

/-- Witness for `c6_install_success` at concrete inputs: an archive with one
common wrapper directory "app" replacing an existing install. -/
theorem c6_install_success_witness :
    find_zip_asset sampleRelease = some sampleAsset
    ∧ install "o" "r" none (some sampleRelease)
        { appDir := some [("old.txt", "old")], backupDir := none }
        (.unpacked [("app/a.txt", "A"), ("app/sub/b.txt", "B")])
      = (.ok "v1.0.0",
         { appDir := some (extract_zip [("app/a.txt", "A"), ("app/sub/b.txt", "B")]),
           backupDir := none })
    ∧ extract_zip [("app/a.txt", "A"), ("app/sub/b.txt", "B")]
        = [("a.txt", "A"), ("sub/b.txt", "B")] :=
  ⟨rfl,
   (c6_install_success "o" "r" none sampleRelease sampleAsset
      { appDir := some [("old.txt", "old")], backupDir := none }
      [("app/a.txt", "A"), ("app/sub/b.txt", "B")] rfl).1,
   by decide⟩
